/-
  Verification of the BitForge build-orchestration engine (Rust sources in
  src/) against its natural-language specification.

  The Rust code is shallowly embedded: pure string manipulation becomes Lean
  functions on String / List Char; effectful code (process spawning, git
  operations, the event channel) becomes explicit traces of effect values or
  message values produced by pure functions of the inputs and of an oracle
  describing the outcomes of the external steps.  Machine floats appearing as
  progress fractions are represented as exact rationals (all values used by
  the program are short decimal literals whose relative order is unchanged by
  rounding to f32).
-/
import Mathlib

deriving instance DecidableEq for Except

namespace BitForge

/- ────────────────────────────────────────────────────────────────────────
   Command Runner (src/process.rs, run_command)

   The child process's behaviour is abstracted by a `SpawnOutcome` oracle:
   either the spawn itself fails with a cause, or the child runs and ends
   with an exit status — `some code` for a normal exit, `none` for
   termination by a signal (Rust `ExitStatus::code()` returns `None` there,
   and `ExitStatus::success()` is true exactly for exit code 0).
   ──────────────────────────────────────────────────────────────────────── -/

inductive SpawnOutcome where
  | spawnError (cause : String)
  | exited (code : Option Int)
deriving DecidableEq, Repr

inductive RunError where
  | spawnFailed (cmd : String) (cause : String)
  | commandFailed (codeOrSignal : String) (cmd : String)
deriving DecidableEq, Repr

/-- Embedding of `run_command` (src/process.rs lines 28-90), restricted to
the exit-status logic: spawn failure yields the contextualised spawn error;
otherwise the result is `ok` when `status.success()` holds (exit code 0) and
a `Command failed (exit {code}): {cmd}` error otherwise, where the code text
is the decimal exit code or the marker `signal`. -/
def run_command (cmd : String) (outcome : SpawnOutcome) : Except RunError Unit :=
  match outcome with
  | .spawnError cause => .error (.spawnFailed cmd cause)
  | .exited code =>
      if code = some 0 then
        .ok ()
      else
        .error (.commandFailed (match code with
          | some c => toString c
          | none => "signal") cmd)

/- ────────────────────────────────────────────────────────────────────────
   Version-tag validation and shell quoting (src/compiler.rs lines 433-443)
   ──────────────────────────────────────────────────────────────────────── -/

/-- Model of Rust `char::is_alphanumeric` (true iff the character is Unicode
alphabetic or Unicode numeric, i.e. in categories L* or Nd/Nl/No).  The model
is exact for every code point below U+0100 — the Basic Latin and Latin-1
blocks, which cover every character that appears in the statements of this
development (letters, digits, and Latin-1 letters such as U+00E9, and the
Latin-1 numerics U+00B2/B3/B9/BC-BE and letters U+00AA/B5/BA) — and maps the
remaining code points to false. -/
def char_is_alphanumeric (c : Char) : Bool :=
  let n := c.toNat
  decide ((48 ≤ n ∧ n ≤ 57) ∨ (65 ≤ n ∧ n ≤ 90) ∨ (97 ≤ n ∧ n ≤ 122) ∨
    n = 0xAA ∨ n = 0xB5 ∨ n = 0xBA ∨ n = 0xB2 ∨ n = 0xB3 ∨ n = 0xB9 ∨
    (0xBC ≤ n ∧ n ≤ 0xBE) ∨ (0xC0 ≤ n ∧ n ≤ 0xD6) ∨ (0xD8 ≤ n ∧ n ≤ 0xF6) ∨
    (0xF8 ≤ n ∧ n ≤ 0xFF))

/-- The character set a tag may use according to the code: Rust
`is_alphanumeric` or one of `.`, `-`, `_` (src/compiler.rs line 434). -/
def tag_char_allowed (c : Char) : Bool :=
  char_is_alphanumeric c || c = '.' || c = '-' || c = '_'

/-- The allow-list named by the specification: ASCII `[A-Za-z0-9._-]`. -/
def ascii_allow_list (c : Char) : Bool :=
  let n := c.toNat
  decide ((48 ≤ n ∧ n ≤ 57) ∨ (65 ≤ n ∧ n ≤ 90) ∨ (97 ≤ n ∧ n ≤ 122)) ||
    c = '.' || c = '-' || c = '_'

/-- Embedding of `validate_version_tag` (src/compiler.rs lines 433-439). -/
def validate_version_tag (tag : String) : Except String Unit :=
  if tag.toList.all tag_char_allowed then
    .ok ()
  else
    .error ("Version tag contains unexpected characters: " ++ tag)

/-- Escape step of `shell_quote`: Rust `s.replace('\'', "'\\''")`. -/
def shell_quote_escape : List Char → List Char
  | [] => []
  | c :: rest =>
      if c = '\'' then '\'' :: '\\' :: '\'' :: '\'' :: shell_quote_escape rest
      else c :: shell_quote_escape rest

/-- Embedding of `shell_quote` (src/compiler.rs lines 441-443). -/
def shell_quote (s : String) : String :=
  "'" ++ String.mk (shell_quote_escape s.toList) ++ "'"

/- ────────────────────────────────────────────────────────────────────────
   Source Sync (src/compiler.rs, clone_or_update, lines 379-429)

   Effect-trace embedding.  A `GitState` records whether the source
   directory exists and, if so, the tag printed by
   `git describe --tags --exact-match` run in it (`probe` returns that
   string; a failing probe is folded into the state as the empty string,
   matching `unwrap_or_default()`).  The external git semantics used by the
   model: a successful `git clone --depth 1 --branch t` leaves a checkout
   whose exact-match description is `t`.  The function returns the ordered
   trace of effects it performs together with its result; on a validation
   error the trace is empty — no process is spawned and no filesystem
   operation happens.
   ──────────────────────────────────────────────────────────────────────── -/

structure GitState where
  checkout : Option String
deriving DecidableEq, Repr

inductive GitEffect where
  | probeDescribe
  | removeDir
  | clone (cmd : String)
deriving DecidableEq, Repr

def BITCOIN_REPO : String := "https://github.com/bitcoin/bitcoin.git"

def ELECTRS_REPO : String := "https://github.com/romanz/electrs.git"

/-- The clone command string built by `clone_or_update`
(src/compiler.rs lines 413-419). -/
def git_clone_cmd (version repo_url src_dir : String) : String :=
  "git clone --progress --depth 1 --branch " ++ shell_quote version ++ " " ++
    shell_quote repo_url ++ " " ++ shell_quote src_dir

/-- Embedding of `clone_or_update` (src/compiler.rs lines 379-429).
`build_dir` is only the working directory of the clone command and does not
influence the control flow. -/
def clone_or_update (st : GitState) (src_dir build_dir version repo_url : String) :
    List GitEffect × Except String GitState :=
  match validate_version_tag version with
  | .error e => ([], .error e)
  | .ok () =>
      match st.checkout with
      | some current_tag =>
          if current_tag = version then
            ([.probeDescribe], .ok st)
          else
            ([.probeDescribe, .removeDir,
              .clone (git_clone_cmd version repo_url src_dir)],
             .ok ⟨some version⟩)
      | none =>
          ([.clone (git_clone_cmd version repo_url src_dir)],
           .ok ⟨some version⟩)

/-- Number of clone commands (the only network operations in the model)
in an effect trace. -/
def clone_count (tr : List GitEffect) : Nat :=
  tr.countP (fun e => match e with | .clone _ => true | _ => false)

/-- Number of recursive directory removals in an effect trace. -/
def remove_count (tr : List GitEffect) : Nat :=
  tr.countP (fun e => match e with | .removeDir => true | _ => false)

/- ────────────────────────────────────────────────────────────────────────
   Output sanitisation (src/process.rs, sanitise_cr and drain_reader)
   ──────────────────────────────────────────────────────────────────────── -/

/-- Left-to-right non-overlapping replacement of `"\r\n"` by `"\n"`, the
semantics of Rust `str::replace("\r\n", "\n")` (the pattern is two distinct
characters, so its matches cannot overlap): when the list starts with the
pair `\r`, `\n`, both are consumed and a `\n` is emitted; otherwise the
head character is kept. -/
def replace_crlf : List Char → List Char
  | [] => []
  | [c] => [c]
  | c :: d :: rest =>
      if c = '\r' ∧ d = '\n' then '\n' :: replace_crlf rest
      else c :: replace_crlf (d :: rest)

/-- Embedding of `sanitise_cr` (src/process.rs lines 141-148), including the
fast path that returns the input unchanged when it contains no carriage
return. -/
def sanitise_cr (s : List Char) : List Char :=
  if '\r' ∈ s then replace_crlf s else s

/-- The sanitisation the specification describes, stated positionally: a
character is dropped exactly when it is a `\r` immediately followed by a
`\n` (the pair collapses to the `\n`); every other character — including a
bare `\r` — passes through unmodified. -/
def collapse_spec : List Char → List Char
  | [] => []
  | [c] => [c]
  | c :: d :: rest =>
      (if c = '\r' ∧ d = '\n' then [] else [c]) ++ collapse_spec (d :: rest)

/-- The replacement character U+FFFD. -/
def replacement_char : Char := Char.ofNat 0xFFFD

/-- Is `b` a UTF-8 continuation byte (`0x80-0xBF`)? -/
def utf8_cont (b : Nat) : Bool := decide (0x80 ≤ b ∧ b ≤ 0xBF)

/-- Allowed range of the first continuation byte after a three-byte lead
(E0 requires A0-BF, ED requires 80-9F to exclude surrogates). -/
def utf8_cont3 (lead b : Nat) : Bool :=
  if lead = 0xE0 then decide (0xA0 ≤ b ∧ b ≤ 0xBF)
  else if lead = 0xED then decide (0x80 ≤ b ∧ b ≤ 0x9F)
  else utf8_cont b

/-- Allowed range of the first continuation byte after a four-byte lead
(F0 requires 90-BF, F4 requires 80-8F to stay below U+110000). -/
def utf8_cont4 (lead b : Nat) : Bool :=
  if lead = 0xF0 then decide (0x90 ≤ b ∧ b ≤ 0xBF)
  else if lead = 0xF4 then decide (0x80 ≤ b ∧ b ≤ 0x8F)
  else utf8_cont b

/-- Model of Rust `String::from_utf8_lossy`: total permissive UTF-8
decoding.  Valid sequences decode to their scalar value; each maximal
subpart of an ill-formed sequence is replaced by one U+FFFD (WHATWG
substitution, the policy Rust documents), and decoding never fails. -/
def from_utf8_lossy : List Nat → List Char
  | [] => []
  | b :: rest =>
      if b ≤ 0x7F then
        Char.ofNat b :: from_utf8_lossy rest
      else if 0xC2 ≤ b ∧ b ≤ 0xDF then
        match rest with
        | [] => [replacement_char]
        | b2 :: r2 =>
            if utf8_cont b2 then
              Char.ofNat ((b - 0xC0) * 0x40 + (b2 - 0x80)) :: from_utf8_lossy r2
            else
              replacement_char :: from_utf8_lossy (b2 :: r2)
      else if 0xE0 ≤ b ∧ b ≤ 0xEF then
        match rest with
        | [] => [replacement_char]
        | b2 :: r2 =>
            if utf8_cont3 b b2 then
              match r2 with
              | [] => [replacement_char]
              | b3 :: r3 =>
                  if utf8_cont b3 then
                    Char.ofNat (((b - 0xE0) * 0x40 + (b2 - 0x80)) * 0x40 + (b3 - 0x80)) ::
                      from_utf8_lossy r3
                  else
                    replacement_char :: from_utf8_lossy (b3 :: r3)
            else
              replacement_char :: from_utf8_lossy (b2 :: r2)
      else if 0xF0 ≤ b ∧ b ≤ 0xF4 then
        match rest with
        | [] => [replacement_char]
        | b2 :: r2 =>
            if utf8_cont4 b b2 then
              match r2 with
              | [] => [replacement_char]
              | b3 :: r3 =>
                  if utf8_cont b3 then
                    match r3 with
                    | [] => [replacement_char]
                    | b4 :: r4 =>
                        if utf8_cont b4 then
                          Char.ofNat ((((b - 0xF0) * 0x40 + (b2 - 0x80)) * 0x40 +
                            (b3 - 0x80)) * 0x40 + (b4 - 0x80)) :: from_utf8_lossy r4
                        else
                          replacement_char :: from_utf8_lossy (b4 :: r4)
                  else
                    replacement_char :: from_utf8_lossy (b3 :: r3)
            else
              replacement_char :: from_utf8_lossy (b2 :: r2)
      else
        replacement_char :: from_utf8_lossy rest

/-- The loop body of `drain_reader` (src/process.rs lines 102-124): the
carried bytes are extended with the chunk just read, decoded permissively,
sanitised, the carry is reset to empty, and the sanitised text is sent when
non-empty; after the last read the remaining carry would be flushed
(src/process.rs lines 127-133). -/
def drain_reader_go (carry : List Nat) : List (List Nat) → List (List Char)
  | [] =>
      if carry.isEmpty then []
      else
        let s := sanitise_cr (from_utf8_lossy carry)
        if s.isEmpty then [] else [s]
  | chunk :: chunks =>
      let combined := carry ++ chunk
      let s := sanitise_cr (from_utf8_lossy combined)
      (if s.isEmpty then [] else [s]) ++ drain_reader_go [] chunks

/-- Embedding of `drain_reader` (src/process.rs lines 95-134): the sequence
of text messages sent to the sink, given the sequence of byte chunks
successfully read from the pipe. -/
def drain_reader (chunks : List (List Nat)) : List (List Char) :=
  drain_reader_go [] chunks

/- ────────────────────────────────────────────────────────────────────────
   Bitcoin build-step commands (src/compiler.rs, compile_bitcoin)
   ──────────────────────────────────────────────────────────────────────── -/

/-- The cmake configure command issued by `compile_bitcoin`
(src/compiler.rs lines 80-93; the Rust string-literal line continuations
collapse to single spaces). -/
def cmake_configure_cmd : String :=
  "cmake -B build -DENABLE_WALLET=OFF -DENABLE_IPC=OFF -DBUILD_TESTS=OFF " ++
  "-DBUILD_BENCH=OFF -DBUILD_GUI=OFF -DWITH_MINIUPNPC=OFF -DWITH_NATPMP=OFF " ++
  "-DWITH_ZMQ=OFF"

/-- The cmake build command issued by `compile_bitcoin`
(src/compiler.rs line 112). -/
def cmake_build_cmd (cores : Nat) : String :=
  "cmake --build build -j " ++ toString cores

/-- Rust `version.trim_start_matches('v')`: remove every leading `v`. -/
def trim_leading_v (s : String) : String :=
  String.mk (s.toList.dropWhile (fun c => c = 'v'))

/-- The full sequence of shell commands `compile_bitcoin` runs on a fresh
build directory (src/compiler.rs lines 27-118): the shallow clone produced
by `clone_or_update`, then the cmake configure step, then the cmake build
step.  The function records the whole happy-path command list; no command
in it depends on any parsed version number — `compile_bitcoin` contains no
version inspection beyond embedding the tag text into directory names and
the clone command. -/
def compile_bitcoin_commands (version build_dir : String) (cores : Nat) : List String :=
  let src_dir := build_dir ++ "/bitcoin-" ++ trim_leading_v version
  [git_clone_cmd version BITCOIN_REPO src_dir, cmake_configure_cmd, cmake_build_cmd cores]

/-- The two build-system strategies the specification names. -/
inductive BuildSystem where
  | legacyAutotools
  | modernCMake
deriving DecidableEq, Repr

/-- Digits accumulated into a number, for the spec-side tag parse. -/
def digits_to_nat (ds : List Char) : Nat :=
  ds.foldl (fun n c => n * 10 + (c.toNat - 48)) 0

/-- Modelled from the spec (no such function exists in src/): parse the
tag's leading `major.minor` numeric pair, defaulting to `(0, 0)` if
unparseable; a leading `v` is tolerated since the spec applies the parse to
tags such as `"v29.1"`. -/
def parse_major_minor (tag : String) : Nat × Nat :=
  let cs := tag.toList
  let cs := if cs.head? = some 'v' then cs.tail else cs
  let major := cs.takeWhile Char.isDigit
  let rest := cs.dropWhile Char.isDigit
  let minor := rest.tail.takeWhile Char.isDigit
  if major ≠ [] ∧ rest.head? = some '.' ∧ minor ≠ [] then
    (digits_to_nat major, digits_to_nat minor)
  else
    (0, 0)

/-- Modelled from the spec (no such selection exists in src/): the
version-driven build-system choice the specification describes, with the
cutover at major version 25 inclusive. -/
def spec_build_system (tag : String) : BuildSystem :=
  if (parse_major_minor tag).1 < 25 then .legacyAutotools else .modernCMake

/- ────────────────────────────────────────────────────────────────────────
   Compile-task event traces (src/app.rs spawn_compile, lines 347-456,
   together with the Progress/dialog sends inside compile_bitcoin and
   compile_electrs in src/compiler.rs)

   The outcome of each external step is abstracted by a stage oracle; for
   each oracle value the embedded functions list, in program order, the
   Progress / ShowDialog / TaskDone messages the code sends.  Log messages
   are omitted: no claim mentions them.  Progress fractions are exact
   rationals.
   ──────────────────────────────────────────────────────────────────────── -/

inductive Msg where
  | progress (v : ℚ)
  | dialog (isError : Bool)
  | taskDone
deriving DecidableEq, Repr

/-- How far a Bitcoin pipeline run got before failing, if it failed. -/
inductive BitcoinStage where
  | cloneFail
  | configureFail
  | buildFail
  | built
deriving DecidableEq, Repr

/-- Oracle for one `compile_bitcoin` invocation: the stage reached and the
executables discovered in `build/bin` and successfully copied when the
build step succeeded. -/
structure BitcoinRun where
  stage : BitcoinStage
  artifacts : List String
deriving DecidableEq, Repr

inductive BitcoinError where
  | cloneFailed
  | configureFailed
  | buildFailed
  | noArtifactsProduced
deriving DecidableEq, Repr

/-- Result of `compile_bitcoin` (src/compiler.rs lines 27-158): each step's
failure aborts the pipeline; a successful build whose discovered-and-copied
artifact set is empty is the fatal `Build appeared to succeed but no
binaries were found` error (lines 136-142). -/
def compile_bitcoin_result (r : BitcoinRun) : Except BitcoinError Unit :=
  match r.stage with
  | .cloneFail => .error .cloneFailed
  | .configureFail => .error .configureFailed
  | .buildFail => .error .buildFailed
  | .built => if r.artifacts.isEmpty then .error .noArtifactsProduced else .ok ()

/-- Messages `compile_bitcoin` itself sends (src/compiler.rs: Progress 0.2
before configure at line 78, Progress 0.45 before build at line 105,
Progress 0.9 after build at line 120). -/
def compile_bitcoin_msgs (r : BitcoinRun) : List Msg :=
  match r.stage with
  | .cloneFail => []
  | .configureFail => [.progress 0.2]
  | .buildFail => [.progress 0.2, .progress 0.45]
  | .built => [.progress 0.2, .progress 0.45, .progress 0.9]

/-- How far an Electrs pipeline run got before failing, if it failed. -/
inductive ElectrsStage where
  | cargoMissing
  | cloneFail
  | buildFail
  | binaryMissing
  | built
deriving DecidableEq, Repr

inductive ElectrsError where
  | cargoNotFound
  | cloneFailed
  | buildFailed
  | binaryNotFound
deriving DecidableEq, Repr

/-- Result of `compile_electrs` (src/compiler.rs lines 160-237). -/
def compile_electrs_result (e : ElectrsStage) : Except ElectrsError Unit :=
  match e with
  | .cargoMissing => .error .cargoNotFound
  | .cloneFail => .error .cloneFailed
  | .buildFail => .error .buildFailed
  | .binaryMissing => .error .binaryNotFound
  | .built => .ok ()

/-- Messages `compile_electrs` itself sends (src/compiler.rs: the `Rust Not
Found` dialog at lines 177-181, Progress 0.3 before the cargo build at line
204, Progress 0.85 after it at line 215). -/
def compile_electrs_msgs (e : ElectrsStage) : List Msg :=
  match e with
  | .cargoMissing => [.dialog true]
  | .cloneFail => []
  | .buildFail => [.progress 0.3]
  | .binaryMissing => [.progress 0.3, .progress 0.85]
  | .built => [.progress 0.3, .progress 0.85]

/-- Embedding of the task spawned by `spawn_compile` (src/app.rs lines
383-455): the ordered sequence of Progress / ShowDialog / TaskDone messages
sent for a given target and given step outcomes.  Mirrors the source: a
Progress 0.05 first; for the Bitcoin half a Progress 0.1, the inner
messages, then on success Progress 0.5 (target `Both`) or 0.95, and on
failure an error dialog; for the Electrs half — skipped if an error already
occurred — Progress 0.55 (`Both`) or 0.1, the inner messages, and Progress
1.0 or an error dialog; a success dialog preceded by Progress 1.0 when no
error occurred; and a final TaskDone, always. -/
def spawn_compile_msgs (target : String) (b : BitcoinRun) (e : ElectrsStage) : List Msg :=
  let doBitcoin : Bool := target == "Bitcoin" || target == "Both"
  let doElectrs : Bool := target == "Electrs" || target == "Both"
  let bitcoinPart : List Msg :=
    if doBitcoin then
      [.progress 0.1] ++ compile_bitcoin_msgs b ++
        (match compile_bitcoin_result b with
         | .ok _ => [.progress (if target == "Both" then 0.5 else 0.95)]
         | .error _ => [.dialog true])
    else []
  let bitcoinErr : Bool := doBitcoin && !(compile_bitcoin_result b matches .ok _)
  let electrsPart : List Msg :=
    if !bitcoinErr && doElectrs then
      [.progress (if target == "Both" then 0.55 else 0.1)] ++ compile_electrs_msgs e ++
        (match compile_electrs_result e with
         | .ok _ => [.progress 1.0]
         | .error _ => [.dialog true])
    else []
  let electrsErr : Bool :=
    (!bitcoinErr && doElectrs) && !(compile_electrs_result e matches .ok _)
  let successPart : List Msg :=
    if !bitcoinErr && !electrsErr then [.progress 1.0, .dialog false] else []
  [.progress 0.05] ++ bitcoinPart ++ electrsPart ++ successPart ++ [.taskDone]

/-- The Progress fractions of a message trace, in order. -/
def progress_values (msgs : List Msg) : List ℚ :=
  msgs.filterMap (fun m => match m with | .progress v => some v | _ => none)

/-- The number of TaskDone messages in a trace. -/
def task_done_count (msgs : List Msg) : Nat :=
  msgs.countP (fun m => m = .taskDone)

/- ────────────────────────────────────────────────────────────────────────
   Environment Builder (src/env_setup.rs, setup_build_environment)

   The ambient filesystem is abstracted by the predicate `dirExists`; the
   ambient environment contributes `home` (the HOME fallback applied) and
   the inherited PATH value, pushed as a single component exactly as the
   source does.
   ──────────────────────────────────────────────────────────────────────── -/

/-- Embedding of `build_llvm_candidates` (src/env_setup.rs lines 113-121). -/
def build_llvm_candidates (brew_pfx : Option String) : List String :=
  (match brew_pfx with
   | some pfx => [pfx ++ "/opt/llvm"]
   | none => []) ++
  ["/opt/homebrew/opt/llvm", "/usr/local/opt/llvm"]

/-- The ordered PATH components `setup_build_environment` assembles before
deduplication (src/env_setup.rs lines 54-91). -/
def setup_path_parts (brew_pfx : Option String) (home : String)
    (dirExists : String → Bool) (existingPath : Option String) : List String :=
  (match brew_pfx with
   | some pfx => [pfx ++ "/bin"]
   | none => []) ++
  ["/opt/homebrew/bin", "/usr/local/bin"] ++
  (if dirExists (home ++ "/.cargo/bin") then [home ++ "/.cargo/bin"] else []) ++
  (match (build_llvm_candidates brew_pfx).find? (fun c => dirExists (c ++ "/bin")) with
   | some c => [c ++ "/bin"]
   | none => []) ++
  (match existingPath with
   | some p => [p]
   | none => []) ++
  ["/usr/bin", "/bin", "/usr/sbin", "/sbin"]

/-- The deduplication filter of `setup_build_environment` (src/env_setup.rs
lines 93-97): keep a component when it is non-empty and was not seen
before; `seen` plays the role of the HashSet. -/
def dedupe_paths_go (seen : List String) : List String → List String
  | [] => []
  | p :: rest =>
      if p = "" then dedupe_paths_go seen rest
      else if p ∈ seen then dedupe_paths_go seen rest
      else p :: dedupe_paths_go (p :: seen) rest

/-- Deduplicate preserving first occurrence, starting from no seen entries. -/
def dedupe_paths (l : List String) : List String :=
  dedupe_paths_go [] l

/-- The deduplicated PATH component list `setup_build_environment` joins
with `:` into the PATH variable (src/env_setup.rs lines 93-99). -/
def setup_build_environment_path (brew_pfx : Option String) (home : String)
    (dirExists : String → Bool) (existingPath : Option String) : List String :=
  dedupe_paths (setup_path_parts brew_pfx home dirExists existingPath)

/-- Reference definition for first-occurrence order: keep each non-empty
entry at its first occurrence, erasing its later duplicates. -/
def first_occurrences : List String → List String
  | [] => []
  | x :: xs =>
      if x = "" then first_occurrences xs
      else x :: first_occurrences (xs.filter (fun y => y ≠ x))
termination_by l => l.length
decreasing_by
  all_goals simp only [List.length_cons]
  · exact Nat.lt_succ_self _
  · exact Nat.lt_succ_of_le (List.length_filter_le _ _)

/- ────────────────────────────────────────────────────────────────────────
   Theorems
   ──────────────────────────────────────────────────────────────────────── -/

/-- C5: for every command and every child outcome, `run_command` returns
`Ok` if and only if the recorded exit code is exactly 0; a non-zero exit
code yields a CommandFailed error carrying that code and the command text, a
signal termination yields a CommandFailed error carrying the `signal` marker
and the command text, and a spawn failure yields the distinct SpawnFailed
error carrying the command and its cause. -/
theorem run_command_ok_iff_exit_zero (cmd : String) (outcome : SpawnOutcome) :
    (run_command cmd outcome = .ok () ↔ outcome = .exited (some 0)) ∧
    (∀ c : Int, c ≠ 0 →
      run_command cmd (.exited (some c)) = .error (.commandFailed (toString c) cmd)) ∧
    run_command cmd (.exited none) = .error (.commandFailed "signal" cmd) ∧
    (∀ cause : String,
      run_command cmd (.spawnError cause) = .error (.spawnFailed cmd cause)) := by
  refine ⟨?_, ?_, rfl, fun _ => rfl⟩
  · cases outcome with
    | spawnError cause => simp [run_command]
    | exited code =>
        by_cases h : code = some 0 <;> simp [run_command, h]
  · intro c hc
    simp [run_command, hc]

/-- Witness for C5: the theorem applied to a concrete command, a concrete
exit code 0 and a concrete exit code 2. -/
theorem run_command_ok_iff_exit_zero_witness :
    run_command "cmake --build build -j 4" (.exited (some 0)) = .ok () ∧
    run_command "cmake --build build -j 4" (.exited (some 2)) =
      .error (.commandFailed "2" "cmake --build build -j 4") :=
  ⟨(run_command_ok_iff_exit_zero "cmake --build build -j 4" (.exited (some 0))).1.mpr rfl,
   (run_command_ok_iff_exit_zero "cmake --build build -j 4" (.exited (some 0))).2.1 2
     (by decide)⟩

/-- C6: Source Sync is idempotent.  Starting from an absent source
directory, the first call with a valid tag succeeds and performs exactly one
clone; the second call with the same tag — finding the directory present
with its exact-match description equal to the tag — performs only the local
describe probe (no removal, no clone, hence no network operation), returns
success immediately, and the total number of clones over both calls is one. -/
theorem clone_or_update_idempotent (v src bdir repo : String)
    (hv : validate_version_tag v = .ok ()) :
    (clone_or_update (GitState.mk none) src bdir v repo).2 =
      .ok (GitState.mk (some v)) ∧
    clone_count (clone_or_update (GitState.mk none) src bdir v repo).1 = 1 ∧
    clone_or_update (GitState.mk (some v)) src bdir v repo =
      ([.probeDescribe], .ok (GitState.mk (some v))) ∧
    clone_count ((clone_or_update (GitState.mk none) src bdir v repo).1 ++
      (clone_or_update (GitState.mk (some v)) src bdir v repo).1) = 1 := by
  simp [clone_or_update, hv, clone_count]

/-- Witness for C6: the idempotence theorem applied to the tag `v29.1`. -/
theorem clone_or_update_idempotent_witness :
    (clone_or_update (GitState.mk none) "/b/bitcoin-29.1" "/b" "v29.1" BITCOIN_REPO).2 =
      .ok (GitState.mk (some "v29.1")) ∧
    clone_count
      (clone_or_update (GitState.mk none) "/b/bitcoin-29.1" "/b" "v29.1" BITCOIN_REPO).1 = 1 ∧
    clone_or_update (GitState.mk (some "v29.1")) "/b/bitcoin-29.1" "/b" "v29.1" BITCOIN_REPO =
      ([.probeDescribe], .ok (GitState.mk (some "v29.1"))) ∧
    clone_count
      ((clone_or_update (GitState.mk none) "/b/bitcoin-29.1" "/b" "v29.1" BITCOIN_REPO).1 ++
       (clone_or_update (GitState.mk (some "v29.1")) "/b/bitcoin-29.1" "/b" "v29.1"
         BITCOIN_REPO).1) = 1 :=
  clone_or_update_idempotent "v29.1" "/b/bitcoin-29.1" "/b" BITCOIN_REPO (by decide)

/-- C7: for an existing checkout described as tag `A`, syncing to a
different valid tag `B` performs exactly the trace probe, removal, fresh
clone at `B` — one removal followed by one clone, the stale checkout never
reused — and ends in the state checked out at `B`. -/
theorem clone_or_update_mismatch_reclone (A B src bdir repo : String)
    (hAB : A ≠ B) (hv : validate_version_tag B = .ok ()) :
    clone_or_update (GitState.mk (some A)) src bdir B repo =
      ([.probeDescribe, .removeDir, .clone (git_clone_cmd B repo src)],
       .ok (GitState.mk (some B))) ∧
    remove_count (clone_or_update (GitState.mk (some A)) src bdir B repo).1 = 1 ∧
    clone_count (clone_or_update (GitState.mk (some A)) src bdir B repo).1 = 1 := by
  simp [clone_or_update, hv, hAB, clone_count, remove_count]

/-- Witness for C7: the mismatch theorem applied to tags `v28.0` and
`v29.1`. -/
theorem clone_or_update_mismatch_reclone_witness :
    clone_or_update (GitState.mk (some "v28.0")) "/s" "/b" "v29.1" BITCOIN_REPO =
      ([.probeDescribe, .removeDir, .clone (git_clone_cmd "v29.1" BITCOIN_REPO "/s")],
       .ok (GitState.mk (some "v29.1"))) ∧
    remove_count (clone_or_update (GitState.mk (some "v28.0")) "/s" "/b" "v29.1"
      BITCOIN_REPO).1 = 1 ∧
    clone_count (clone_or_update (GitState.mk (some "v28.0")) "/s" "/b" "v29.1"
      BITCOIN_REPO).1 = 1 :=
  clone_or_update_mismatch_reclone "v28.0" "v29.1" "/s" "/b" BITCOIN_REPO
    (by decide) (by decide)

set_option maxRecDepth 8000 in
/-- C10: `validate_version_tag` accepts the empty string (the character
check is vacuous), so Source Sync with an empty tag is not rejected and
interpolates an empty quoted tag into the `--branch` argument of the git
clone shell command. -/
theorem empty_tag_accepted_and_interpolated :
    validate_version_tag "" = .ok () ∧
    clone_or_update (GitState.mk none) "/build/bitcoin-" "/build" "" BITCOIN_REPO =
      ([.clone (git_clone_cmd "" BITCOIN_REPO "/build/bitcoin-")],
       .ok (GitState.mk (some ""))) ∧
    git_clone_cmd "" BITCOIN_REPO "/build/bitcoin-" =
      "git clone --progress --depth 1 --branch '' " ++
        "'https://github.com/bitcoin/bitcoin.git' '/build/bitcoin-'" := by
  refine ⟨rfl, by decide, by decide⟩

/-- Counterexample for C1: the claim is false on the code.  The spec-side
selection rule classifies `24.0` as the legacy build system (its parsed
major version 24 is below the cutover 25), but `compile_bitcoin` runs the
modern CMake configure and build commands for `24.0` — the identical
commands it runs for `25.0`; no version-driven selection exists. -/
theorem bitcoin_build_selection_counterexample :
    spec_build_system "24.0" = .legacyAutotools ∧
    (compile_bitcoin_commands "24.0" "/b" 4).drop 1 =
      [cmake_configure_cmd, cmake_build_cmd 4] ∧
    (compile_bitcoin_commands "24.0" "/b" 4).drop 1 =
      (compile_bitcoin_commands "25.0" "/b" 4).drop 1 ∧
    cmake_configure_cmd.toList.take 6 = "cmake ".toList := by
  refine ⟨by decide, rfl, rfl, by decide⟩

/-- C1 as amended: build-system selection for the Bitcoin pipeline is
unconditional, not version-driven.  For every version tag — `24.0` as much
as `25.0` or `v29.1` — the commands `compile_bitcoin` runs after source
sync are exactly the modern CMake configure and CMake build steps, so the
command sequence never depends on the tag's parsed major.minor pair. -/
theorem bitcoin_build_selection_unconditional (version build_dir : String) (cores : Nat) :
    (compile_bitcoin_commands version build_dir cores).drop 1 =
      [cmake_configure_cmd, cmake_build_cmd cores] ∧
    (compile_bitcoin_commands version build_dir cores).drop 1 =
      (compile_bitcoin_commands "v29.1" build_dir cores).drop 1 :=
  ⟨rfl, rfl⟩

/-- Counterexample for C2: the claim is false on the code.  The tag `é`
consists of the single character U+00E9, which lies outside the ASCII set
`[A-Za-z0-9._-]` named by the claim, yet `validate_version_tag` accepts it:
Rust `char::is_alphanumeric` is a Unicode test, not an ASCII one. -/
theorem validate_version_tag_counterexample :
    validate_version_tag "é" = .ok () ∧
    "é".toList = ['é'] ∧
    ascii_allow_list 'é' = false := by
  refine ⟨by decide, by decide, by decide⟩

/-- C2 as amended: `validate_version_tag` accepts a tag exactly when every
character is Unicode-alphanumeric or one of `.`, `-`, `_` (an allow-list
wider than the ASCII `[A-Za-z0-9._-]` the claim names), and a rejected tag
makes Source Sync fail with the invalid-tag error before performing any
effect — no process is spawned, nothing removed, nothing cloned. -/
theorem validate_version_tag_unicode_allow_list (tag : String) (st : GitState)
    (src bdir repo : String) :
    (validate_version_tag tag = .ok () ↔ tag.toList.all tag_char_allowed = true) ∧
    (validate_version_tag tag ≠ .ok () →
      clone_or_update st src bdir tag repo =
        ([], .error ("Version tag contains unexpected characters: " ++ tag))) := by
  constructor
  · unfold validate_version_tag
    by_cases h : tag.toList.all tag_char_allowed = true
    · rw [if_pos h]
      exact iff_of_true rfl h
    · rw [if_neg h]
      exact iff_of_false (fun hc => Except.noConfusion hc) h
  · intro hrej
    by_cases h : tag.toList.all tag_char_allowed = true
    · refine absurd ?_ hrej
      unfold validate_version_tag
      rw [if_pos h]
    · unfold clone_or_update validate_version_tag
      rw [if_neg h]

/- Helper lemmas about carriage-return sanitisation. -/

theorem collapse_spec_cons_of_ne (c : Char) (rest : List Char)
    (h : ¬(c = '\r' ∧ rest.head? = some '\n')) :
    collapse_spec (c :: rest) = c :: collapse_spec rest := by
  cases rest with
  | nil => rfl
  | cons d r =>
      rw [collapse_spec]
      rw [if_neg (by simp at h ⊢; intro hc; exact h hc)]
      simp

theorem replace_crlf_eq_collapse (s : List Char) :
    replace_crlf s = collapse_spec s := by
  induction s using replace_crlf.induct with
  | case1 => rfl
  | case2 c => rfl
  | case3 c d rest h ih =>
      obtain ⟨rfl, rfl⟩ := h
      rw [replace_crlf]
      rw [if_pos ⟨rfl, rfl⟩]
      rw [show collapse_spec ('\r' :: '\n' :: rest) = collapse_spec ('\n' :: rest) by
        rw [collapse_spec]; simp]
      rw [collapse_spec_cons_of_ne '\n' rest (by simp), ih]
  | case4 c d rest h ih =>
      rw [replace_crlf]
      rw [if_neg h]
      rw [collapse_spec]
      rw [if_neg h]
      rw [ih]
      simp

theorem replace_crlf_of_no_cr (s : List Char) (h : '\r' ∉ s) :
    replace_crlf s = s := by
  induction s using replace_crlf.induct with
  | case1 => rfl
  | case2 c => rfl
  | case3 c d rest hcd ih =>
      exact absurd (hcd.1 ▸ List.mem_cons_self c (d :: rest)) h
  | case4 c d rest hcd ih =>
      rw [replace_crlf]
      rw [if_neg hcd]
      rw [ih (fun hm => h (List.mem_cons_of_mem c hm))]

theorem sanitise_cr_eq_collapse (s : List Char) :
    sanitise_cr s = collapse_spec s := by
  rw [sanitise_cr]
  by_cases h : '\r' ∈ s
  · rw [if_pos h, replace_crlf_eq_collapse]
  · rw [if_neg h, ← replace_crlf_eq_collapse, replace_crlf_of_no_cr s h]

theorem drain_reader_eq_map (chunks : List (List Nat)) :
    drain_reader chunks =
      (chunks.map (fun c => sanitise_cr (from_utf8_lossy c))).filter
        (fun t => !t.isEmpty) := by
  rw [drain_reader]
  induction chunks with
  | nil => rfl
  | cons c rest ih =>
      rw [drain_reader_go, List.map_cons, List.filter_cons]
      simp only [List.nil_append]
      by_cases h : (sanitise_cr (from_utf8_lossy c)).isEmpty
      · simp [h, ih]
      · simp [h, ih]

/-- Counterexample for C4: the claim is false on the code for a `\r\n` pair
split across two read chunks.  Reading the bytes of `a\r` and then `\nb`
forwards `a\r` and `\nb` unchanged — the joined output still contains the
un-collapsed pair — while the same four bytes in a single chunk yield
`a\nb`: `drain_reader` resets its carry on every chunk, so a pair split
across chunk boundaries is never collapsed. -/
theorem crlf_split_across_chunks_counterexample :
    drain_reader [[97, 13], [10, 98]] = [['a', '\r'], ['\n', 'b']] ∧
    (drain_reader [[97, 13], [10, 98]]).join = ['a', '\r', '\n', 'b'] ∧
    (drain_reader [[97, 13, 10, 98]]).join = ['a', '\n', 'b'] := by
  refine ⟨by decide, by decide, by decide⟩

/-- C4 as amended: the drained output is exactly the per-chunk permissive
decoding followed by per-chunk sanitisation (total functions — decoding
replaces invalid sequences and never fails), and within each chunk the
sanitisation collapses every `\r\n` pair to `\n` while passing every other
character — in particular every bare `\r` — through unmodified; a pair
split across successive chunks is forwarded un-collapsed. -/
theorem command_output_sanitisation :
    (∀ chunks : List (List Nat),
      drain_reader chunks =
        (chunks.map (fun c => sanitise_cr (from_utf8_lossy c))).filter
          (fun t => !t.isEmpty)) ∧
    (∀ s : List Char, sanitise_cr s = collapse_spec s) :=
  ⟨drain_reader_eq_map, sanitise_cr_eq_collapse⟩

/-- Counterexample for C3: the claim is false on the code for the composite
`Both` target.  In a fully successful `Both` run the pipeline emits, in
order, the fractions 0.05, 0.1, 0.2, 0.45, 0.9, 0.5, 0.55, 0.3, 0.85, 1.0,
1.0 — the inner `compile_bitcoin` milestones reach 0.9 before the outer
task resets to 0.5, and the outer 0.55 precedes the inner Electrs milestone
0.3 — so the Progress sequence is not non-decreasing. -/
theorem progress_monotonicity_counterexample :
    progress_values (spawn_compile_msgs "Both"
      (BitcoinRun.mk .built ["bitcoind"]) .built) =
      [0.05, 0.1, 0.2, 0.45, 0.9, 0.5, 0.55, 0.3, 0.85, 1, 1] ∧
    ¬ List.Chain' (· ≤ ·) (progress_values (spawn_compile_msgs "Both"
      (BitcoinRun.mk .built ["bitcoind"]) .built)) := by
  constructor
  · simp [spawn_compile_msgs, compile_bitcoin_msgs, compile_bitcoin_result,
      compile_electrs_msgs, compile_electrs_result, progress_values]
    norm_num
  · simp [spawn_compile_msgs, compile_bitcoin_msgs, compile_bitcoin_result,
      compile_electrs_msgs, compile_electrs_result, progress_values,
      List.chain'_cons, List.chain'_singleton]
    norm_num

/-- C3 as amended: within a single-project pipeline run — target `Bitcoin`
or target `Electrs` — the sequence of Progress fractions sent to the event
sink is non-decreasing, whatever the step outcomes; the composite `Both`
target does not share this guarantee. -/
theorem progress_monotone_single_target (target : String) (b : BitcoinRun)
    (e : ElectrsStage) (h : target = "Bitcoin" ∨ target = "Electrs") :
    List.Chain' (· ≤ ·) (progress_values (spawn_compile_msgs target b e)) := by
  obtain ⟨stage, arts⟩ := b
  rcases h with h | h <;> subst h <;> cases stage <;> cases arts <;> cases e <;>
    (simp [spawn_compile_msgs, compile_bitcoin_msgs, compile_bitcoin_result,
      compile_electrs_msgs, compile_electrs_result, progress_values,
      List.chain'_cons, List.chain'_singleton] <;> norm_num)

/-- Witness for C3's amended theorem: a successful Bitcoin-only run. -/
theorem progress_monotone_single_target_witness :
    List.Chain' (· ≤ ·) (progress_values (spawn_compile_msgs "Bitcoin"
      (BitcoinRun.mk .built ["bitcoind"]) .built)) :=
  progress_monotone_single_target "Bitcoin" (BitcoinRun.mk .built ["bitcoind"])
    .built (Or.inl rfl)

/-- C8: a Bitcoin pipeline run whose build step succeeds but whose
discovered-and-copied artifact set is empty fails with the fatal
NoArtifactsProduced error, and every spawned compile task — any target, any
step outcomes, success or failure — sends the TaskDone message exactly
once. -/
theorem no_artifacts_fatal_and_task_done_once :
    (∀ r : BitcoinRun, r.stage = .built → r.artifacts = [] →
      compile_bitcoin_result r = .error .noArtifactsProduced) ∧
    (∀ (target : String) (b : BitcoinRun) (e : ElectrsStage),
      task_done_count (spawn_compile_msgs target b e) = 1) := by
  constructor
  · rintro ⟨stage, arts⟩ hs ha
    simp only at hs ha
    subst hs; subst ha
    rfl
  · intro target b e
    obtain ⟨stage, arts⟩ := b
    cases stage <;> cases arts <;> cases e <;>
      by_cases h3 : target = "Both" <;> by_cases h1 : target = "Bitcoin" <;>
      by_cases h2 : target = "Electrs" <;>
      simp [spawn_compile_msgs, compile_bitcoin_msgs, compile_bitcoin_result,
        compile_electrs_msgs, compile_electrs_result, task_done_count, h1, h2, h3,
        List.countP_append, List.countP_cons]

/-- Witness for C8: a Bitcoin-target run that builds successfully yet
produces no artifacts — the result is NoArtifactsProduced and TaskDone is
still sent exactly once. -/
theorem no_artifacts_fatal_and_task_done_once_witness :
    compile_bitcoin_result (BitcoinRun.mk .built []) = .error .noArtifactsProduced ∧
    task_done_count (spawn_compile_msgs "Bitcoin" (BitcoinRun.mk .built []) .built) = 1 :=
  ⟨no_artifacts_fatal_and_task_done_once.1 (BitcoinRun.mk .built []) rfl rfl,
   no_artifacts_fatal_and_task_done_once.2 "Bitcoin" (BitcoinRun.mk .built []) .built⟩

/-- Witness for C2's amended theorem: applied to the rejected tag `a;b`
(the semicolon is neither alphanumeric nor `.`/`-`/`_`), starting from an
absent directory. -/
theorem validate_version_tag_unicode_allow_list_witness :
    clone_or_update (GitState.mk none) "/s" "/b" "a;b" BITCOIN_REPO =
      ([], .error ("Version tag contains unexpected characters: " ++ "a;b")) :=
  (validate_version_tag_unicode_allow_list "a;b" (GitState.mk none) "/s" "/b"
    BITCOIN_REPO).2 (by decide)

/- Helper lemmas about the PATH deduplication filter. -/

theorem dedupe_go_sublist (seen l : List String) :
    List.Sublist (dedupe_paths_go seen l) l := by
  induction l generalizing seen with
  | nil => simp [dedupe_paths_go]
  | cons p rest ih =>
      simp only [dedupe_paths_go]
      split_ifs with h1 h2
      · exact (ih seen).cons p
      · exact (ih seen).cons p
      · exact (ih (p :: seen)).cons₂ p

theorem mem_dedupe_go {x : String} (seen l : List String)
    (hx : x ∈ dedupe_paths_go seen l) : x ∈ l ∧ x ∉ seen ∧ x ≠ "" := by
  induction l generalizing seen with
  | nil => simp [dedupe_paths_go] at hx
  | cons p rest ih =>
      simp only [dedupe_paths_go] at hx
      split_ifs at hx with h1 h2
      · obtain ⟨h, hs, hne⟩ := ih seen hx
        exact ⟨List.mem_cons_of_mem _ h, hs, hne⟩
      · obtain ⟨h, hs, hne⟩ := ih seen hx
        exact ⟨List.mem_cons_of_mem _ h, hs, hne⟩
      · rcases List.mem_cons.mp hx with rfl | hx'
        · exact ⟨List.mem_cons_self _ _, h2, h1⟩
        · obtain ⟨h, hs, hne⟩ := ih (p :: seen) hx'
          exact ⟨List.mem_cons_of_mem _ h,
            fun hmem => hs (List.mem_cons_of_mem _ hmem), hne⟩

theorem dedupe_go_nodup (seen l : List String) :
    (dedupe_paths_go seen l).Nodup := by
  induction l generalizing seen with
  | nil => simp [dedupe_paths_go]
  | cons p rest ih =>
      simp only [dedupe_paths_go]
      split_ifs with h1 h2
      · exact ih seen
      · exact ih seen
      · refine List.nodup_cons.mpr ⟨?_, ih (p :: seen)⟩
        intro hmem
        exact (mem_dedupe_go _ _ hmem).2.1 (List.mem_cons_self p seen)

theorem dedupe_go_eq_first (seen l : List String) :
    dedupe_paths_go seen l =
      first_occurrences (l.filter (fun x => decide (x ∉ seen))) := by
  induction l generalizing seen with
  | nil => simp [dedupe_paths_go, first_occurrences]
  | cons p rest ih =>
      simp only [dedupe_paths_go]
      split_ifs with h1 h2
      · subst h1
        by_cases hs : "" ∈ seen
        · rw [List.filter_cons_of_neg (by simp [hs])]
          exact ih seen
        · rw [List.filter_cons_of_pos (by simp [hs])]
          rw [first_occurrences]
          rw [if_pos rfl]
          exact ih seen
      · rw [List.filter_cons_of_neg (by simp [h2])]
        exact ih seen
      · rw [List.filter_cons_of_pos (by simp [h2])]
        rw [first_occurrences, if_neg h1]
        rw [ih (p :: seen)]
        congr 1
        congr 1
        rw [List.filter_filter]
        apply List.filter_congr
        intro x hx
        by_cases hxp : x = p <;> by_cases hxs : x ∈ seen <;>
          simp [hxp, hxs, List.mem_cons]

/-- C9: for every input — Homebrew prefix, HOME, filesystem state, and
inherited PATH — the deduplicated PATH component list built by
`setup_build_environment` has no duplicate entries, no empty entries, is a
sublist of the candidate components (relative order preserved), and equals
the first-occurrence sequence of the candidates: any directory occurring
more than once is kept exactly at its first position. -/
theorem setup_build_environment_path_dedup (bp : Option String) (home : String) (dirE : String → Bool)
    (ep : Option String) :
    (setup_build_environment_path bp home dirE ep).Nodup ∧
    "" ∉ setup_build_environment_path bp home dirE ep ∧
    List.Sublist (setup_build_environment_path bp home dirE ep)
      (setup_path_parts bp home dirE ep) ∧
    setup_build_environment_path bp home dirE ep =
      first_occurrences (setup_path_parts bp home dirE ep) := by
  refine ⟨dedupe_go_nodup [] _, ?_, dedupe_go_sublist [] _, ?_⟩
  · intro h
    exact (mem_dedupe_go [] _ h).2.2 rfl
  · rw [setup_build_environment_path, dedupe_paths, dedupe_go_eq_first]
    congr 1
    simp

end BitForge
